import Mathlib

/-!
Verification of the SVV_LoginPage credential issuance, validation and
brute-force-mitigation subsystem.

The backend behaviour (`backend/auth.py`, `backend/api.py`) is embedded from
its in-repository documentation (`src/README.md`, which describes each
function together with the bug ledger stating which defects are preserved
and which are fixed) and, where the repository only states the contract,
from the specification (sections 4.2-4.4).  The frontend registration
schema and the Zustand auth store are embedded directly from the TypeScript
sources.

All timestamps are natural numbers (seconds); bcrypt hashing is modelled by
an injective tagging function together with a counter of how many hash
verifications an operation performs, which is the latency-dominating cost
the timing claims are about.
-/

/-- Model of bcrypt hashing: an injective tag of the secret.  A stored
`hashed_password` for password `p` is `mkHash p`. -/
def mkHash (secret : String) : String := "bcrypt$" ++ secret

/-- Model of `verify_password` (passlib bcrypt verification): recompute and
compare.  Each call to this function is one unit of hashing work. -/
def verifyPassword (secret h : String) : Bool := mkHash secret == h

/-- A row of the `users` table (backend/models.py as documented in
src/README.md: id, username, email, hashed_password, is_active). -/
structure UserRec where
  id : Nat
  username : String
  email : String
  hashed_password : String
  is_active : Bool
deriving DecidableEq, Repr

/-- Look up a user by username (`db.query(User).filter(User.username == ...)`). -/
def findByUsername (db : List UserRec) (name : String) : Option UserRec :=
  db.find? (fun u => u.username == name)

/-- Function `authenticate_user` from backend/auth.py as documented in src/README.md
(Bug 1, lines 220-237, listed under the intentionally preserved hidden
defects): it returns immediately when the username has no record, and
performs exactly one bcrypt verification when the record exists.  The
second component counts the bcrypt verifications performed, the
latency-dominating operation of the call. -/
def authenticate_user (db : List UserRec) (username password : String) :
    Option UserRec × Nat :=
  match findByUsername db username with
  | none => (none, 0)
  | some u =>
      if verifyPassword password u.hashed_password then (some u, 1) else (none, 1)

/-- Example user table with a single real user. -/
def exampleDb : List UserRec :=
  [⟨1, "real_user", "real@example.com", mkHash "correct-pw", true⟩]

/-! ## AttemptTracker

Modelled from the spec, section 4.3 (backend/api.py is not in the
repository snapshot; only its contract and the bug ledger are): a per-key
record with `failureCount`, `windowStart` and optional `lockedUntil`;
`recordFailure`, key-scoped `clear`, and an `isLocked` query that lazily
transitions an expired lockout back to an unlocked record with
`failureCount = 0`. -/

/-- Per-tracking-key mutable record (spec section 3, AttemptRecord). -/
structure AttemptRecord where
  failureCount : Nat
  windowStart : Nat
  lockedUntil : Option Nat
deriving DecidableEq, Repr

/-- Lockout threshold: 5 failures (src/README.md: "5 failures = 1 min lockout"). -/
def threshold : Nat := 5

/-- Sliding window length in seconds (spec section 4.3: 15-minute window). -/
def windowDuration : Nat := 900

/-- Lockout cooldown in seconds (src/README.md: 1 minute lockout). -/
def lockoutDuration : Nat := 60

/-- The tracker state: an association list from tracking key to record. -/
abbrev Tracker := List (String × AttemptRecord)

/-- Read the record stored for a key, if any. -/
def lookupRec (t : Tracker) (k : String) : Option AttemptRecord :=
  (t.find? (fun e => e.1 == k)).map (·.2)

/-- Replace (or insert) the record stored for a key, leaving every other
key's record untouched. -/
def setRec (t : Tracker) (k : String) (r : AttemptRecord) : Tracker :=
  (k, r) :: t.filter (fun e => e.1 != k)

/-- Modelled from the spec: once `now >= lockedUntil` "the record
transitions back to unlocked and `failureCount` resets to 0" (section 4.3). -/
def expireRec (r : AttemptRecord) (now : Nat) : AttemptRecord :=
  match r.lockedUntil with
  | some u => if u ≤ now then ⟨0, now, none⟩ else r
  | none => r

/-- Modelled from the spec: `recordFailure(key)` increments `failureCount`;
a first failure sets `windowStart = now`; reaching `threshold` within
`windowDuration` of `windowStart` sets `lockedUntil = now + lockoutDuration`
(section 4.3).  An expired lockout is first reset lazily. -/
def recordFailure (t : Tracker) (k : String) (now : Nat) : Tracker :=
  let r0 := expireRec ((lookupRec t k).getD ⟨0, now, none⟩) now
  let r1 := if r0.failureCount = 0 then { r0 with windowStart := now } else r0
  let c := r1.failureCount + 1
  let lock :=
    if threshold ≤ c ∧ now - r1.windowStart ≤ windowDuration then
      some (now + lockoutDuration)
    else r1.lockedUntil
  setRec t k ⟨c, r1.windowStart, lock⟩

/-- Modelled from the spec: `isLocked(key)` is true iff `lockedUntil`
exists and `now < lockedUntil`; once `now >= lockedUntil` the record
transitions back to unlocked with `failureCount = 0` (section 4.3), so the
query returns the possibly-updated tracker besides the answer. -/
def isLockedSt (t : Tracker) (k : String) (now : Nat) : Tracker × Bool :=
  match lookupRec t k with
  | none => (t, false)
  | some r =>
      match r.lockedUntil with
      | none => (t, false)
      | some u =>
          if now < u then (t, true) else (setRec t k ⟨0, now, none⟩, false)

/-- Modelled from the spec: `clear(key)` removes the record for that key
entirely and never touches other keys' records (section 4.3). -/
def clearKey (t : Tracker) (k : String) : Tracker :=
  t.filter (fun e => e.1 != k)

/-! ## TokenService

Modelled from the spec, section 4.2, and src/README.md (backend/auth.py is
not in the repository snapshot).  A token carries `subject`, `issuedAt`
and `expiresAt` and an HMAC-style signature over the payload; per the fix
of README Bug 7 ("Store user ID instead of username in JWT sub claim",
marked fixed in the bug summary) the subject is the stable numeric account
id, not the username. -/

/-- The signed token payload: stable account id as subject, plus the two
timestamps. -/
structure TokenPayload where
  sub : Nat
  issuedAt : Nat
  expiresAt : Nat
deriving DecidableEq, Repr

/-- Model of the HMAC signature: an injective rendering of the payload
keyed by the server secret.  Verification recomputes and compares. -/
def signPayload (secret : String) (p : TokenPayload) : String :=
  secret ++ "|" ++ toString p.sub ++ "|" ++ toString p.issuedAt ++ "|" ++
    toString p.expiresAt

/-- A presented token string: either it deserialises into a payload and a
signature, or it is garbage that does not parse. -/
inductive TokenString where
  | parsed (payload : TokenPayload) (sig : String)
  | garbage (raw : String)
deriving DecidableEq, Repr

/-- The three distinct internal verification error kinds (spec section 4.2). -/
inductive VerifyError where
  | SignatureInvalid
  | TokenExpired
  | TokenMalformed
deriving DecidableEq, Repr

/-- Modelled from the spec: `mint(subject, ttl)` produces a signed token
encoding `{subject, issuedAt = now, expiresAt = now + ttl}` (section 4.2). -/
def mintTok (secret : String) (sub now ttl : Nat) : TokenString :=
  TokenString.parsed ⟨sub, now, now + ttl⟩ (signPayload secret ⟨sub, now, now + ttl⟩)

/-- Configured token lifetime in minutes (`ACCESS_TOKEN_EXPIRE_MINUTES`,
default 30, backend/README.md configuration table). -/
def ACCESS_TOKEN_EXPIRE_MINUTES : Nat := 30

/-- Function `create_access_token` with the default expiry: lifetime
`ACCESS_TOKEN_EXPIRE_MINUTES` converted to seconds. -/
def create_access_token (secret : String) (sub now : Nat) : TokenString :=
  mintTok secret sub now (ACCESS_TOKEN_EXPIRE_MINUTES * 60)

/-- Modelled from the spec: `verify` fails with `TokenMalformed` when the
string does not parse, `SignatureInvalid` when the signature does not
match, `TokenExpired` when `now >= expiresAt`, and otherwise returns the
subject (section 4.2). -/
def verifyToken (secret : String) (ts : TokenString) (now : Nat) :
    Except VerifyError Nat :=
  match ts with
  | TokenString.garbage _ => Except.error VerifyError.TokenMalformed
  | TokenString.parsed p sg =>
      if sg ≠ signPayload secret p then Except.error VerifyError.SignatureInvalid
      else if p.expiresAt ≤ now then Except.error VerifyError.TokenExpired
      else Except.ok p.sub

/-! ## AuthGateway -/

/-- Outcome of a login attempt as seen by the caller
(429 locked / 401 invalid credentials / 403 inactive / token issued). -/
inductive LoginOutcome where
  | issued (tok : TokenString)
  | invalidCredentials
  | accountInactive
  | rateLimited
deriving DecidableEq, Repr

/-- Function `login_for_access_token` from backend/api.py, modelled from the spec's
gateway state machine (section 4.4) and src/README.md: the failed-attempt
tracker is keyed by the caller's client IP, not the username (README Bug 2,
listed under the intentionally preserved hidden defects); the account's
`is_active` flag is checked after credential verification and before
minting (README Bug 11, marked fixed, with the fix code quoted in the
README); only wrong-credential failures are recorded. -/
def login_for_access_token (secret : String) (db : List UserRec) (t : Tracker)
    (client_ip username password : String) (now ttl : Nat) :
    Tracker × LoginOutcome :=
  match isLockedSt t client_ip now with
  | (t1, true) => (t1, LoginOutcome.rateLimited)
  | (t1, false) =>
      match (authenticate_user db username password).1 with
      | none => (recordFailure t1 client_ip now, LoginOutcome.invalidCredentials)
      | some u =>
          if u.is_active then
            (clearKey t1 client_ip, LoginOutcome.issued (mintTok secret u.id now ttl))
          else (t1, LoginOutcome.accountInactive)

/-- Function `get_current_user` from backend/auth.py as documented in src/README.md
(Bug 7, marked fixed: the token's `sub` claim holds the stable user id and
the user is looked up by id): verify the token, then resolve the subject
against the user table by id. -/
def get_current_user (secret : String) (db : List UserRec) (ts : TokenString)
    (now : Nat) : Option UserRec :=
  match verifyToken secret ts now with
  | Except.ok sub => db.find? (fun u => u.id == sub)
  | Except.error _ => none

/-- Rename an account's username in place, keeping its id and every other
field (the `PUT /api/auth/users/me` username update). -/
def rename_user (db : List UserRec) (i : Nat) (newName : String) : List UserRec :=
  db.map (fun u => if u.id == i then { u with username := newName } else u)

/-- Uniform outcome of `authorize` at the gateway boundary. -/
inductive AuthzResult where
  | ok (sub : Nat)
  | unauthorized
deriving DecidableEq, Repr

/-- Modelled from the spec: `authorize(tokenString)` delegates to
`TokenService.verify` and collapses every failure kind into a single
`Unauthorized` (section 4.4); the frontend client treats any 401 the same
way (src/frontend-example/src/api/client.ts response interceptor). -/
def authorize (secret : String) (ts : TokenString) (now : Nat) : AuthzResult :=
  match verifyToken secret ts now with
  | Except.ok sub => AuthzResult.ok sub
  | Except.error _ => AuthzResult.unauthorized

/-- Example table with two active users, for the keying scenarios. -/
def dbTwoUsers : List UserRec :=
  [⟨1, "alice", "alice@example.com", mkHash "pwA", true⟩,
   ⟨2, "bob", "bob@example.com", mkHash "pwB", true⟩]

/-- Example table with a single deactivated user. -/
def dbInactive : List UserRec :=
  [⟨3, "carol", "carol@example.com", mkHash "pwC", false⟩]

/-- Tracker state after `n` failed "alice" logins, all from the single
address 9.9.9.9 (the i-th at time i-1). -/
def sameIpFails : Nat → Tracker
  | 0 => []
  | n + 1 =>
      (login_for_access_token "sk" dbTwoUsers (sameIpFails n) "9.9.9.9"
        "alice" "wrong" n 1800).1

/-- Five rotating source addresses. -/
def rotIps : List String :=
  ["1.1.1.1", "2.2.2.2", "3.3.3.3", "4.4.4.4", "5.5.5.5"]

/-- Tracker state after five failed "alice" logins, one from each of the
five rotating addresses, all at time 0. -/
def rotatedFails : Tracker :=
  rotIps.foldl
    (fun t ip => (login_for_access_token "sk" dbTwoUsers t ip "alice" "wrong" 0 1800).1)
    []

/-! ## Frontend registration schema

Embedded from `src/frontend-example/src/components/Register.tsx`
(`registerSchema`, lines 36-54) and, in a second variant, from
`src/frontend/index.ts` (`registerSchema` with `superRefine`,
lines 70-117).  Character classes are spelled out from the regexes. -/

/-- Character class `[A-Z]`. -/
def isUpperC (c : Char) : Bool := 'A' ≤ c && c ≤ 'Z'

/-- Character class `[a-z]`. -/
def isLowerC (c : Char) : Bool := 'a' ≤ c && c ≤ 'z'

/-- Character class `[0-9]`. -/
def isDigitC (c : Char) : Bool := '0' ≤ c && c ≤ '9'

/-- Character class `[!@#$%^&*]`, the allowed special characters. -/
def isSpecialC (c : Char) : Bool :=
  c == '!' || c == '@' || c == '#' || c == '$' || c == '%' || c == '^' ||
    c == '&' || c == '*'

/-- The password character class `[a-zA-Z0-9!@#$%^&*]`. -/
def isPasswordChar (c : Char) : Bool :=
  isLowerC c || isUpperC c || isDigitC c || isSpecialC c

/-- The username character class `[a-zA-Z0-9_]`. -/
def isUsernameChar (c : Char) : Bool :=
  isLowerC c || isUpperC c || isDigitC c || c == '_'

/-- Username rule of the registration schema: min 3, max 100, regex
`^[a-zA-Z0-9_]+$`. -/
def usernameOk (s : String) : Bool :=
  3 ≤ s.length && s.length ≤ 100 && 1 ≤ s.length && s.data.all isUsernameChar

/-- Characters zod's email regex allows in the local part. -/
def isEmailLocalChar (c : Char) : Bool :=
  isLowerC c || isUpperC c || isDigitC c || c == '_' || c == '\'' ||
    c == '+' || c == '-' || c == '.'

/-- No two consecutive dots. -/
def noDoubleDot : List Char → Bool
  | [] => true
  | [_] => true
  | a :: b :: rest => !(a == '.' && b == '.') && noDoubleDot (b :: rest)

/-- Split a character list at every occurrence of a separator character. -/
def splitOnChar (sep : Char) : List Char → List (List Char)
  | [] => [[]]
  | c :: rest =>
      let parts := splitOnChar sep rest
      if c == sep then [] :: parts
      else
        match parts with
        | [] => [[c]]
        | p :: ps => (c :: p) :: ps

/-- Local part of zod's email regex: allowed characters only, not starting
with a dot, no consecutive dots, and a final character that is not a dot
or a quote. -/
def emailLocalOk (l : List Char) : Bool :=
  l.all isEmailLocalChar && noDoubleDot l &&
    (match l with
     | [] => false
     | c :: _ => !(c == '.')) &&
    (match l.getLast? with
     | none => false
     | some c => isLowerC c || isUpperC c || isDigitC c || c == '_' ||
         c == '+' || c == '-')

/-- One domain label `[A-Za-z0-9][A-Za-z0-9-]*`. -/
def emailLabelOk (l : List Char) : Bool :=
  match l with
  | [] => false
  | c :: rest =>
      (isLowerC c || isUpperC c || isDigitC c) &&
        rest.all (fun d => isLowerC d || isUpperC d || isDigitC d || d == '-')

/-- Domain part of zod's email regex: dot-separated labels ending in an
alphabetic top-level label of length at least 2. -/
def emailDomainOk (d : List Char) : Bool :=
  let labels := splitOnChar '.' d
  match labels.getLast? with
  | none => false
  | some tld =>
      2 ≤ labels.length && 2 ≤ tld.length && tld.all (fun c => isLowerC c || isUpperC c) &&
        (labels.dropLast.all emailLabelOk)

/-- Models zod's `z.string().email()` validator: a local part, a single
`@`, and a dot-separated domain with an alphabetic top-level label. -/
def emailOk (s : String) : Bool :=
  match splitOnChar '@' s.data with
  | [l, d] => emailLocalOk l && emailDomainOk d
  | _ => false

/-- Email rule of the registration schema: min 1, `email()`, max 255. -/
def emailRuleOk (s : String) : Bool :=
  1 ≤ s.length && emailOk s && s.length ≤ 255

/-- Password rule of the registration schema (the `superRefine` block,
Register.tsx lines 48-80 / frontend/index.ts lines 81-112): `min(1)` plus
the seven collected checks — length at least 8, length at most 128, the
character-class regex `^[a-zA-Z0-9!@#$%^&*]*$`, and one occurrence each of
an uppercase letter, a lowercase letter, a digit and a special character. -/
def passwordRuleOk (p : String) : Bool :=
  1 ≤ p.length &&
    (8 ≤ p.length && p.length ≤ 128 && p.data.all isPasswordChar &&
      p.data.any isUpperC && p.data.any isLowerC && p.data.any isDigitC &&
      p.data.any isSpecialC)

/-- One form submission of the registration page. -/
structure RegisterFormValues where
  username : String
  email : String
  password : String
  confirmPassword : String
deriving DecidableEq, Repr

/-- The schema `registerSchema` as it appears, identically, in
src/frontend-example/src/components/Register.tsx (lines 37-85) and
src/frontend/index.ts (lines 70-117): the field rules plus the `refine`
that `password === confirmPassword` (`confirmPassword` carries `min(1)`). -/
def registerSchemaAccepts (v : RegisterFormValues) : Bool :=
  usernameOk v.username && emailRuleOk v.email && passwordRuleOk v.password &&
    1 ≤ v.confirmPassword.length && (v.password == v.confirmPassword)

/-- The password requirements as the specification states them, written
independently of the schema code: length between 8 and 128 characters,
only characters from `[a-zA-Z0-9!@#$%^&*]`, at least one uppercase letter,
one lowercase letter, one digit and one special character, and agreement
with the confirmation field. -/
def PasswordSpecOk (p c : String) : Prop :=
  8 ≤ p.length ∧ p.length ≤ 128 ∧
    (∀ ch ∈ p.data, isPasswordChar ch = true) ∧
    (∃ ch ∈ p.data, isUpperC ch = true) ∧
    (∃ ch ∈ p.data, isLowerC ch = true) ∧
    (∃ ch ∈ p.data, isDigitC ch = true) ∧
    (∃ ch ∈ p.data, isSpecialC ch = true) ∧
    p = c

/-! ## Frontend auth store

Embedded from the Zustand store `useAuthStore`
(src/frontend/api/auth.ts lines 162-181 and
src/frontend-example/src/store/auth.ts): state fields `token`, `user`,
`isAuthenticated`, actions `setToken`, `login`, `logout`, `updateUser`. -/

/-- The `User` object held by the store. -/
structure StoreUser where
  id : Nat
  username : String
  email : String
deriving DecidableEq, Repr

/-- The store's state shape (`AuthState` in src/frontend/types/auth.ts). -/
structure AuthStoreState where
  token : Option String
  user : Option StoreUser
  isAuthenticated : Bool
deriving DecidableEq, Repr

/-- Initial store state: `token: null, user: null, isAuthenticated: false`. -/
def initialAuthState : AuthStoreState := ⟨none, none, false⟩

/-- Action `setToken: (token) => set({ token })`. -/
def storeSetToken (tk : String) (s : AuthStoreState) : AuthStoreState :=
  { s with token := some tk }

/-- Action `login: (user) => set({ user, isAuthenticated: true })`. -/
def storeLogin (u : StoreUser) (s : AuthStoreState) : AuthStoreState :=
  { s with user := some u, isAuthenticated := true }

/-- Action `logout: () => set({ token: null, user: null, isAuthenticated: false })`. -/
def storeLogout (_ : Unit) (s : AuthStoreState) : AuthStoreState :=
  { s with token := none, user := none, isAuthenticated := false }

/-- Action `updateUser: (user) => set({ user })`. -/
def storeUpdateUser (u : StoreUser) (s : AuthStoreState) : AuthStoreState :=
  { s with user := some u }

/-- One invocation of a public store action. -/
inductive StoreAct where
  | setTok (tk : String)
  | doLogin (u : StoreUser)
  | doLogout
  | doUpdateUser (u : StoreUser)
deriving DecidableEq, Repr

/-- Apply one store action to a state. -/
def applyAct (s : AuthStoreState) : StoreAct → AuthStoreState
  | StoreAct.setTok tk => storeSetToken tk s
  | StoreAct.doLogin u => storeLogin u s
  | StoreAct.doLogout => storeLogout () s
  | StoreAct.doUpdateUser u => storeUpdateUser u s

/-- Run a sequence of store actions from a state. -/
def runActs (acts : List StoreAct) (s : AuthStoreState) : AuthStoreState :=
  acts.foldl applyAct s

/-- A state is reachable when some sequence of public actions produces it
from the initial state. -/
def ReachableStore (s : AuthStoreState) : Prop :=
  ∃ acts, runActs acts initialAuthState = s

/-! ## Helper lemmas about the tracker's association list -/

theorem find?_filter_ne (t : Tracker) (k k' : String) (h : k' ≠ k) :
    (t.filter (fun e => e.1 != k)).find? (fun e => e.1 == k') =
      t.find? (fun e => e.1 == k') := by
  induction t with
  | nil => rfl
  | cons a t ih =>
      by_cases hk : a.1 = k
      · have h1 : (a.1 != k) = false := by simp [hk]
        have h2 : (a.1 == k') = false := by
          simp [hk]
          exact fun hc => h hc.symm
        simp [List.filter, List.find?, h1, h2, ih]
      · have h1 : (a.1 != k) = true := by simp [hk]
        by_cases hk' : a.1 = k'
        · have h2 : (a.1 == k') = true := by simp [hk']
          simp [List.filter, List.find?, h1, h2]
        · have h2 : (a.1 == k') = false := by simp [hk']
          simp [List.filter, List.find?, h1, h2, ih]

theorem lookupRec_setRec_self (t : Tracker) (k : String) (r : AttemptRecord) :
    lookupRec (setRec t k r) k = some r := by
  simp [lookupRec, setRec, List.find?]

theorem lookupRec_setRec_ne (t : Tracker) (k k' : String) (r : AttemptRecord)
    (h : k' ≠ k) : lookupRec (setRec t k r) k' = lookupRec t k' := by
  have h2 : (k == k') = false := by
    simp
    exact fun hc => h hc.symm
  simp [lookupRec, setRec, List.find?, h2, find?_filter_ne t k k' h]

theorem lookupRec_clearKey_ne (t : Tracker) (j k : String) (h : k ≠ j) :
    lookupRec (clearKey t j) k = lookupRec t k := by
  simp [lookupRec, clearKey, find?_filter_ne t j k h]

theorem recordFailure_eq_setRec (t : Tracker) (k : String) (now : Nat) :
    ∃ r, recordFailure t k now = setRec t k r :=
  ⟨_, rfl⟩

theorem recordFailure_of_none (t : Tracker) (k : String) (now : Nat)
    (h : lookupRec t k = none) :
    recordFailure t k now = setRec t k ⟨1, now, none⟩ := by
  have h5 : ¬ threshold ≤ 0 + 1 := by decide
  simp [recordFailure, h, expireRec, h5]

theorem recordFailure_of_zero (t : Tracker) (k : String) (now w : Nat)
    (h : lookupRec t k = some ⟨0, w, none⟩) :
    recordFailure t k now = setRec t k ⟨1, now, none⟩ := by
  have h5 : ¬ threshold ≤ 0 + 1 := by decide
  simp [recordFailure, h, expireRec, h5]

theorem recordFailure_below (t : Tracker) (k : String) (now c w : Nat)
    (h : lookupRec t k = some ⟨c, w, none⟩) (hc : c ≠ 0)
    (h5 : ¬ threshold ≤ c + 1) :
    recordFailure t k now = setRec t k ⟨c + 1, w, none⟩ := by
  simp [recordFailure, h, expireRec, hc, h5]

theorem recordFailure_reaches (t : Tracker) (k : String) (now c w : Nat)
    (h : lookupRec t k = some ⟨c, w, none⟩) (hc : c ≠ 0)
    (h5 : threshold ≤ c + 1) (hw : now - w ≤ windowDuration) :
    recordFailure t k now = setRec t k ⟨c + 1, w, some (now + lockoutDuration)⟩ := by
  simp [recordFailure, h, expireRec, hc, h5, hw]

theorem isLockedSt_of_unlocked (t : Tracker) (k : String) (now c w : Nat)
    (h : lookupRec t k = some ⟨c, w, none⟩) :
    isLockedSt t k now = (t, false) := by
  simp [isLockedSt, h]

theorem isLockedSt_of_none (t : Tracker) (k : String) (now : Nat)
    (h : lookupRec t k = none) :
    isLockedSt t k now = (t, false) := by
  simp [isLockedSt, h]

/-! ## C1: dummy-hash verification on unknown identities -/

/-- C1 counterexample: on the repository's `authenticate_user` an unknown
identity performs zero bcrypt verifications while an existing identity
with a wrong password performs one — the hashing work differs, so account
existence is observable from latency, refuting the claim. -/
theorem c1_counterexample :
    (authenticate_user exampleDb "nonexistent_user" "x").2 = 0 ∧
    (authenticate_user exampleDb "real_user" "x").2 = 1 ∧
    (authenticate_user exampleDb "nonexistent_user" "x").2 ≠
      (authenticate_user exampleDb "real_user" "x").2 := by
  refine ⟨rfl, ?_, ?_⟩ <;> decide

/-- C1 (amended): `authenticate_user` short-circuits on an unknown
identity, returning failure after zero password verifications, while an
existing identity with a wrong password costs exactly one verification —
the timing side channel of README Bug 1, intentionally preserved. -/
theorem c1_amended_no_dummy_hash (db : List UserRec) (u p : String) :
    (findByUsername db u = none → authenticate_user db u p = (none, 0)) ∧
    (∀ r : UserRec, findByUsername db u = some r →
      verifyPassword p r.hashed_password = false →
      authenticate_user db u p = (none, 1)) := by
  constructor
  · intro h
    simp [authenticate_user, h]
  · intro r h hv
    simp [authenticate_user, h, hv]

/-- Concrete instantiation of the amended C1 theorem. -/
theorem c1_amended_no_dummy_hash_witness :
    authenticate_user exampleDb "nonexistent_user" "x" = (none, 0) ∧
    authenticate_user exampleDb "real_user" "x" = (none, 1) :=
  ⟨(c1_amended_no_dummy_hash exampleDb "nonexistent_user" "x").1 (by decide),
   (c1_amended_no_dummy_hash exampleDb "real_user" "x").2
     ⟨1, "real_user", "real@example.com", mkHash "correct-pw", true⟩
     (by decide) (by decide)⟩

/-! ## C8: uniform Unauthorized at the gateway boundary -/

/-- C8: every internal token-verification failure — expired, bad
signature, or malformed — surfaces as the single `Unauthorized` outcome of
`authorize`; callers cannot tell the kinds apart. -/
theorem c8_uniform_unauthorized :
    (∀ (secret : String) (ts : TokenString) (now : Nat) (e : VerifyError),
      verifyToken secret ts now = Except.error e →
      authorize secret ts now = AuthzResult.unauthorized) ∧
    (∀ (secret : String) (ts ts2 : TokenString) (now now2 : Nat)
      (e e2 : VerifyError),
      verifyToken secret ts now = Except.error e →
      verifyToken secret ts2 now2 = Except.error e2 →
      authorize secret ts now = authorize secret ts2 now2) := by
  constructor
  · intro secret ts now e h
    simp [authorize, h]
  · intro secret ts ts2 now now2 e e2 h h2
    simp [authorize, h, h2]

/-- Concrete instantiation of C8: an expired token and a malformed token
produce the same `Unauthorized` outcome. -/
theorem c8_uniform_unauthorized_witness :
    authorize "sk" (TokenString.garbage "zz") 0 = AuthzResult.unauthorized ∧
    authorize "sk" (mintTok "sk" 1 0 5) 9 = authorize "sk" (TokenString.garbage "zz") 0 :=
  ⟨c8_uniform_unauthorized.1 "sk" (TokenString.garbage "zz") 0
     VerifyError.TokenMalformed rfl,
   c8_uniform_unauthorized.2 "sk" (mintTok "sk" 1 0 5) (TokenString.garbage "zz")
     9 0 VerifyError.TokenExpired VerifyError.TokenMalformed (by rfl) rfl⟩

/-! ## C10: auth store frame conditions and reachability -/

/-- C10: `login` updates only `user` and `isAuthenticated` (leaving
`token` unchanged), `setToken` updates only `token`, and the state with
`isAuthenticated = true` and `token = null` is reachable through the
public store actions (a single `login` from the initial state). -/
theorem c10_store_frame_and_reachability :
    (∀ (s : AuthStoreState) (u : StoreUser),
      (storeLogin u s).token = s.token ∧ (storeLogin u s).user = some u ∧
        (storeLogin u s).isAuthenticated = true) ∧
    (∀ (s : AuthStoreState) (tk : String),
      (storeSetToken tk s).token = some tk ∧
        (storeSetToken tk s).user = s.user ∧
        (storeSetToken tk s).isAuthenticated = s.isAuthenticated) ∧
    ReachableStore ⟨none, some ⟨1, "alice", "alice@example.com"⟩, true⟩ :=
  ⟨fun _ _ => ⟨rfl, rfl, rfl⟩,
   fun _ _ => ⟨rfl, rfl, rfl⟩,
   ⟨[StoreAct.doLogin ⟨1, "alice", "alice@example.com"⟩], rfl⟩⟩

/-! ## C7: token validity window and expiry arithmetic -/

/-- C7: verification of a parsed token succeeds with the original subject
exactly when the signature checks and the current time is strictly before
`expiresAt`; a minted token verifies exactly while `now < issuedAt + ttl`
and yields `TokenExpired` exactly once the ttl has elapsed; a minted
payload's `expiresAt` exceeds `issuedAt` by exactly the requested ttl, and
`create_access_token` uses the configured
`ACCESS_TOKEN_EXPIRE_MINUTES` lifetime. -/
theorem c7_verify_window_and_expiry :
    (∀ (secret : String) (p : TokenPayload) (sg : String) (now : Nat),
      verifyToken secret (TokenString.parsed p sg) now = Except.ok p.sub ↔
        (sg = signPayload secret p ∧ now < p.expiresAt)) ∧
    (∀ (secret : String) (sub now ttl now2 : Nat),
      verifyToken secret (mintTok secret sub now ttl) now2 = Except.ok sub ↔
        now2 < now + ttl) ∧
    (∀ (secret : String) (sub now ttl now2 : Nat),
      verifyToken secret (mintTok secret sub now ttl) now2 =
          Except.error VerifyError.TokenExpired ↔ now + ttl ≤ now2) ∧
    (∀ (secret : String) (sub now ttl : Nat),
      ∃ (p : TokenPayload) (sg : String),
        mintTok secret sub now ttl = TokenString.parsed p sg ∧
          p.sub = sub ∧ p.issuedAt = now ∧ p.expiresAt = p.issuedAt + ttl) ∧
    (∀ (secret : String) (sub now : Nat),
      ∃ (p : TokenPayload) (sg : String),
        create_access_token secret sub now = TokenString.parsed p sg ∧
          p.expiresAt = p.issuedAt + ACCESS_TOKEN_EXPIRE_MINUTES * 60) ∧
    (∀ (secret raw : String) (now : Nat),
      verifyToken secret (TokenString.garbage raw) now =
        Except.error VerifyError.TokenMalformed) := by
  have base : ∀ (secret : String) (p : TokenPayload) (sg : String) (now : Nat),
      verifyToken secret (TokenString.parsed p sg) now = Except.ok p.sub ↔
        (sg = signPayload secret p ∧ now < p.expiresAt) := by
    intro secret p sg now
    by_cases hsg : sg = signPayload secret p
    · by_cases hexp : p.expiresAt ≤ now
      · simp [verifyToken, hsg, hexp]
      · simp [verifyToken, hsg, hexp]
        omega
    · simp [verifyToken, hsg]
  refine ⟨base, ?_, ?_, ?_, ?_, ?_⟩
  · intro secret sub now ttl now2
    rw [mintTok, base]
    simp
  · intro secret sub now ttl now2
    by_cases hexp : now + ttl ≤ now2
    · simp [mintTok, verifyToken, hexp]
    · simp [mintTok, verifyToken, hexp]
  · intro secret sub now ttl
    exact ⟨_, _, rfl, rfl, rfl, rfl⟩
  · intro secret sub now
    exact ⟨_, _, rfl, rfl⟩
  · intro secret raw now
    rfl

/-! ## C4: threshold behaviour and key-scoped clearing -/

/-- C4: with `threshold = 5`, four recorded failures for a fresh key K
leave `isLocked(K)` false (at any query time), the fifth failure within
the window makes `isLocked(K)` true, and clearing a different key J never
changes `isLocked(K)`. -/
theorem c4_threshold_and_key_scoped_clear :
    (∀ (t0 : Tracker) (k : String) (n1 n2 n3 n4 n5 : Nat),
      lookupRec t0 k = none →
      n5 - n1 ≤ windowDuration →
      (∀ q, (isLockedSt (recordFailure (recordFailure (recordFailure
          (recordFailure t0 k n1) k n2) k n3) k n4) k q).2 = false) ∧
        (isLockedSt (recordFailure (recordFailure (recordFailure (recordFailure
          (recordFailure t0 k n1) k n2) k n3) k n4) k n5) k n5).2 = true) ∧
    (∀ (t : Tracker) (j k : String) (now : Nat), j ≠ k →
      (isLockedSt (clearKey t j) k now).2 = (isLockedSt t k now).2) := by
  constructor
  · intro t0 k n1 n2 n3 n4 n5 h0 hw
    have e1 : recordFailure t0 k n1 = setRec t0 k ⟨1, n1, none⟩ :=
      recordFailure_of_none t0 k n1 h0
    have l1 : lookupRec (recordFailure t0 k n1) k = some ⟨1, n1, none⟩ := by
      rw [e1]; simp [lookupRec_setRec_self]
    have e2 := recordFailure_below _ k n2 1 n1 l1 (by decide) (by decide)
    have l2 : lookupRec (recordFailure (recordFailure t0 k n1) k n2) k =
        some ⟨2, n1, none⟩ := by
      rw [e2]; simp [lookupRec_setRec_self]
    have e3 := recordFailure_below _ k n3 2 n1 l2 (by decide) (by decide)
    have l3 : lookupRec (recordFailure (recordFailure (recordFailure t0 k n1)
        k n2) k n3) k = some ⟨3, n1, none⟩ := by
      rw [e3]; simp [lookupRec_setRec_self]
    have e4 := recordFailure_below _ k n4 3 n1 l3 (by decide) (by decide)
    have l4 : lookupRec (recordFailure (recordFailure (recordFailure
        (recordFailure t0 k n1) k n2) k n3) k n4) k = some ⟨4, n1, none⟩ := by
      rw [e4]; simp [lookupRec_setRec_self]
    have e5 := recordFailure_reaches _ k n5 4 n1 l4 (by decide) (by decide) hw
    have l5 : lookupRec (recordFailure (recordFailure (recordFailure
        (recordFailure (recordFailure t0 k n1) k n2) k n3) k n4) k n5) k =
        some ⟨5, n1, some (n5 + lockoutDuration)⟩ := by
      rw [e5]; simp [lookupRec_setRec_self]
    constructor
    · intro q
      rw [isLockedSt_of_unlocked _ k q 4 n1 l4]
    · simp [isLockedSt, l5, lockoutDuration]
  · intro t j k now h
    have hkj : lookupRec (clearKey t j) k = lookupRec t k :=
      lookupRec_clearKey_ne t j k (Ne.symm h)
    rcases hr : lookupRec t k with _ | r
    · simp [isLockedSt, hkj, hr]
    · rcases hu : r.lockedUntil with _ | u
      · simp [isLockedSt, hkj, hr, hu]
      · by_cases hn : now < u
        · simp [isLockedSt, hkj, hr, hu, hn]
        · simp [isLockedSt, hkj, hr, hu, hn]

/-- Concrete instantiation of C4: five immediate failures for key "K"
starting from an empty tracker lock "K". -/
theorem c4_threshold_witness :
    (isLockedSt (recordFailure (recordFailure (recordFailure (recordFailure
      (recordFailure [] "K" 0) "K" 0) "K" 0) "K" 0) "K" 0) "K" 0).2 = true :=
  (c4_threshold_and_key_scoped_clear.1 [] "K" 0 0 0 0 0 rfl (by decide)).2

/-! ## C5: lockout expiry resets the record -/

/-- C5: for a locked record, once `lockedUntil <= now` the `isLocked`
query answers false and resets the record to `failureCount = 0`; the next
recorded failure (either after the query or directly) starts a fresh count
of 1, not `threshold + 1`. -/
theorem c5_lockout_expiry_resets (t : Tracker) (k : String) (r : AttemptRecord)
    (u now now2 : Nat) (hl : lookupRec t k = some r)
    (hu : r.lockedUntil = some u) (hexp : u ≤ now) :
    (isLockedSt t k now).2 = false ∧
    lookupRec (isLockedSt t k now).1 k = some ⟨0, now, none⟩ ∧
    lookupRec (recordFailure (isLockedSt t k now).1 k now2) k =
      some ⟨1, now2, none⟩ ∧
    lookupRec (recordFailure t k now) k = some ⟨1, now, none⟩ := by
  have hn : ¬ now < u := by omega
  have hq : isLockedSt t k now = (setRec t k ⟨0, now, none⟩, false) := by
    simp [isLockedSt, hl, hu, hn]
  have hq1 : lookupRec (isLockedSt t k now).1 k = some ⟨0, now, none⟩ := by
    rw [hq]; simp [lookupRec_setRec_self]
  refine ⟨by rw [hq], hq1, ?_, ?_⟩
  · have e := recordFailure_of_zero (isLockedSt t k now).1 k now2 now hq1
    rw [e]; simp [lookupRec_setRec_self]
  · have h5 : ¬ threshold ≤ 0 + 1 := by decide
    have he : expireRec r now = ⟨0, now, none⟩ := by
      simp [expireRec, hu, hexp]
    simp [recordFailure, hl, he, h5, lookupRec_setRec_self]

/-- Concrete instantiation of C5: key "K" locked until time 60, queried
and failed again at time 60. -/
theorem c5_lockout_expiry_resets_witness :
    (isLockedSt [("K", ⟨5, 0, some 60⟩)] "K" 60).2 = false ∧
    lookupRec (isLockedSt [("K", ⟨5, 0, some 60⟩)] "K" 60).1 "K" =
      some ⟨0, 60, none⟩ ∧
    lookupRec (recordFailure (isLockedSt [("K", ⟨5, 0, some 60⟩)] "K" 60).1
      "K" 61) "K" = some ⟨1, 61, none⟩ ∧
    lookupRec (recordFailure [("K", ⟨5, 0, some 60⟩)] "K" 60) "K" =
      some ⟨1, 60, none⟩ :=
  c5_lockout_expiry_resets [("K", ⟨5, 0, some 60⟩)] "K" ⟨5, 0, some 60⟩
    60 60 61 (by decide) rfl (by decide)

/-! ## C2: the failure-tracking key is the address, not the identity -/

/-- C2 counterexample: five failed "alice" logins from address 9.9.9.9
lock out "bob" (a different identity) at that address, and five failed
"alice" logins spread over five rotating addresses accumulate no lockout —
a sixth wrong-password attempt from a fresh address is still processed
as an ordinary credential failure. -/
theorem c2_counterexample :
    (login_for_access_token "sk" dbTwoUsers (sameIpFails 5) "9.9.9.9"
      "bob" "pwB" 5 1800).2 = LoginOutcome.rateLimited ∧
    (login_for_access_token "sk" dbTwoUsers rotatedFails "6.6.6.6"
      "alice" "wrong" 5 1800).2 = LoginOutcome.invalidCredentials := by
  constructor
  · rfl
  · rfl

/-- C2 (amended): the tracker of `login_for_access_token` is keyed by the
caller's client address (README Bug 2, intentionally preserved): recording
a failure for one address leaves every other address's record untouched
(so rotating addresses restarts the count), any two wrong-credential
logins from one address mutate the tracker identically regardless of
which identity they target, and a locked address rejects every identity. -/
theorem c2_amended_ip_keyed :
    (∀ (t : Tracker) (ip ip2 : String) (now : Nat), ip2 ≠ ip →
      lookupRec (recordFailure t ip now) ip2 = lookupRec t ip2) ∧
    (∀ (secret : String) (db : List UserRec) (t : Tracker)
      (ip u1 p1 u2 p2 : String) (now ttl : Nat),
      (isLockedSt t ip now).2 = false →
      (authenticate_user db u1 p1).1 = none →
      (authenticate_user db u2 p2).1 = none →
      login_for_access_token secret db t ip u1 p1 now ttl =
        login_for_access_token secret db t ip u2 p2 now ttl) ∧
    (∀ (secret : String) (db : List UserRec) (t : Tracker)
      (ip u1 p1 : String) (now ttl : Nat),
      (isLockedSt t ip now).2 = true →
      login_for_access_token secret db t ip u1 p1 now ttl =
        ((isLockedSt t ip now).1, LoginOutcome.rateLimited)) := by
  refine ⟨?_, ?_, ?_⟩
  · intro t ip ip2 now h
    obtain ⟨r, hr⟩ := recordFailure_eq_setRec t ip now
    rw [hr]
    exact lookupRec_setRec_ne t ip ip2 r h
  · intro secret db t ip u1 p1 u2 p2 now ttl hlock h1 h2
    rcases hL : isLockedSt t ip now with ⟨t1, b⟩
    rw [hL] at hlock
    simp at hlock
    subst hlock
    simp [login_for_access_token, hL, h1, h2]
  · intro secret db t ip u1 p1 now ttl hlock
    rcases hL : isLockedSt t ip now with ⟨t1, b⟩
    rw [hL] at hlock
    simp at hlock
    subst hlock
    simp [login_for_access_token, hL]

/-- Concrete instantiation of the amended C2 theorem. -/
theorem c2_amended_ip_keyed_witness :
    lookupRec (recordFailure [] "1.1.1.1" 0) "2.2.2.2" = lookupRec [] "2.2.2.2" ∧
    login_for_access_token "sk" dbTwoUsers (sameIpFails 5) "9.9.9.9"
        "bob" "pwB" 5 1800 =
      ((isLockedSt (sameIpFails 5) "9.9.9.9" 5).1, LoginOutcome.rateLimited) :=
  ⟨c2_amended_ip_keyed.1 [] "1.1.1.1" "2.2.2.2" 0 (by decide),
   c2_amended_ip_keyed.2.2 "sk" dbTwoUsers (sameIpFails 5) "9.9.9.9"
     "bob" "pwB" 5 1800 (by decide)⟩

/-! ## C3: the active flag gates minting -/

/-- C3: when credentials verify but the account's `is_active` flag is
false, the login rejects with the inactive outcome and the tracker is left
as the lockout check left it — no token is minted; conversely, every
issued token comes from an authenticated user whose `is_active` flag is
true. -/
theorem c3_inactive_never_minted :
    (∀ (secret : String) (db : List UserRec) (t : Tracker)
      (ip username password : String) (now ttl : Nat) (u : UserRec),
      (isLockedSt t ip now).2 = false →
      (authenticate_user db username password).1 = some u →
      u.is_active = false →
      login_for_access_token secret db t ip username password now ttl =
        ((isLockedSt t ip now).1, LoginOutcome.accountInactive)) ∧
    (∀ (secret : String) (db : List UserRec) (t : Tracker)
      (ip username password : String) (now ttl : Nat) (tok : TokenString),
      (login_for_access_token secret db t ip username password now ttl).2 =
        LoginOutcome.issued tok →
      ∃ u : UserRec, (authenticate_user db username password).1 = some u ∧
        u.is_active = true ∧ tok = mintTok secret u.id now ttl) := by
  constructor
  · intro secret db t ip username password now ttl u hlock hauth hact
    rcases hL : isLockedSt t ip now with ⟨t1, b⟩
    rw [hL] at hlock
    simp at hlock
    subst hlock
    simp [login_for_access_token, hL, hauth, hact]
  · intro secret db t ip username password now ttl tok hiss
    rcases hL : isLockedSt t ip now with ⟨t1, b⟩
    cases b
    · rcases hA : (authenticate_user db username password).1 with _ | u
      · simp [login_for_access_token, hL, hA] at hiss
      · by_cases hact : u.is_active
        · refine ⟨u, rfl, hact, ?_⟩
          simp [login_for_access_token, hL, hA, hact] at hiss
          exact hiss.symm
        · simp [login_for_access_token, hL, hA, hact] at hiss
    · simp [login_for_access_token, hL] at hiss

/-- Concrete instantiation of C3: the deactivated user "carol" with the
correct password is rejected and receives no token. -/
theorem c3_inactive_never_minted_witness :
    login_for_access_token "sk" dbInactive [] "7.7.7.7" "carol" "pwC" 0 1800 =
      ((isLockedSt [] "7.7.7.7" 0).1, LoginOutcome.accountInactive) :=
  c3_inactive_never_minted.1 "sk" dbInactive [] "7.7.7.7" "carol" "pwC" 0 1800
    ⟨3, "carol", "carol@example.com", mkHash "pwC", false⟩ rfl (by decide) rfl

/-! ## C6: tokens bind the stable account id, not the username -/

theorem find?_rename_user (db : List UserRec) (i : Nat) (n : String) :
    (rename_user db i n).find? (fun x => x.id == i) =
      (db.find? (fun x => x.id == i)).map
        (fun u => { u with username := n }) := by
  induction db with
  | nil => rfl
  | cons a db ih =>
      by_cases h : a.id = i
      · simp [rename_user, List.find?, h]
      · simp only [rename_user, List.map, List.find?] at ih ⊢
        have hb : (a.id == i) = false := by simp [h]
        simp only [hb, if_false, Bool.false_eq_true, if_neg, cond_false]
        exact ih

/-- C6: the minted token's subject is the stable account id; after the
account's username is renamed, the already-issued token still verifies
(before its natural expiry) and `get_current_user` still resolves it to
the same account, now carrying the new username. -/
theorem c6_subject_is_stable_id (secret : String) (db : List UserRec)
    (u : UserRec) (now ttl now2 : Nat) (newName : String)
    (hfind : db.find? (fun x => x.id == u.id) = some u)
    (hexp : now2 < now + ttl) :
    (∃ (p : TokenPayload) (sg : String),
      mintTok secret u.id now ttl = TokenString.parsed p sg ∧ p.sub = u.id) ∧
    verifyToken secret (mintTok secret u.id now ttl) now2 = Except.ok u.id ∧
    get_current_user secret (rename_user db u.id newName)
        (mintTok secret u.id now ttl) now2 =
      some { u with username := newName } := by
  have h2 : ¬ (now + ttl ≤ now2) := by omega
  have hver : verifyToken secret (mintTok secret u.id now ttl) now2 =
      Except.ok u.id := by
    simp [mintTok, verifyToken, h2]
  refine ⟨⟨_, _, rfl, rfl⟩, hver, ?_⟩
  simp [get_current_user, hver, find?_rename_user, hfind]

/-- Concrete instantiation of C6: renaming "alice" to "alicia" leaves her
earlier token resolving to the same account id 1. -/
theorem c6_subject_is_stable_id_witness :
    get_current_user "sk" (rename_user dbTwoUsers 1 "alicia")
        (mintTok "sk" 1 0 1800) 10 =
      some ⟨1, "alicia", "alice@example.com", mkHash "pwA", true⟩ :=
  (c6_subject_is_stable_id "sk" dbTwoUsers
    ⟨1, "alice", "alice@example.com", mkHash "pwA", true⟩ 0 1800 10 "alicia"
    (by decide) (by decide)).2.2

/-! ## C9: the registration schema's password conjuncts -/

/-- C9: a form value passes `registerSchema` only if its password is 8-128
characters long, drawn from `[a-zA-Z0-9!@#$%^&*]`, contains an uppercase
letter, a lowercase letter, a digit and a special character, and equals
the confirmation field; violating any conjunct means rejection. -/
theorem c9_register_password_rules (v : RegisterFormValues) :
    (registerSchemaAccepts v = true →
      PasswordSpecOk v.password v.confirmPassword) ∧
    (¬ PasswordSpecOk v.password v.confirmPassword →
      registerSchemaAccepts v = false) := by
  have main : registerSchemaAccepts v = true →
      PasswordSpecOk v.password v.confirmPassword := by
    intro h
    simp only [registerSchemaAccepts, passwordRuleOk, Bool.and_eq_true,
      decide_eq_true_eq, List.all_eq_true, List.any_eq_true, beq_iff_eq] at h
    unfold PasswordSpecOk
    tauto
  refine ⟨main, ?_⟩
  intro hn
  cases hb : registerSchemaAccepts v
  · rfl
  · exact absurd (main hb) hn

/-- Concrete instantiation of C9: the accepted form with password
"Passw0rd!" satisfies every password conjunct. -/
theorem c9_register_password_rules_witness :
    PasswordSpecOk "Passw0rd!" "Passw0rd!" :=
  (c9_register_password_rules
    ⟨"alice", "a@example.com", "Passw0rd!", "Passw0rd!"⟩).1 (by decide)
